import Mathlib

/-!
Shallow embedding of the offer search service in `src/main.py`.

The service keeps an in-memory list of offers (`offers_db`), exposes a bulk
insert endpoint (`create_offers`), a faceted search endpoint (`get_offers`)
and a reset endpoint (`delete_offers`).  Python integers are modelled as
`Int`, Python strings as `String`, optional query parameters as `Option`.
The helper `matches_filters` in the source is a placeholder returning `True`
for every offer, and `compute_aggregations` is a placeholder returning empty
or all-zero facet summaries; both are embedded exactly as written.
Python list slicing (with its negative-index resolution) is modelled by
`pySlice`, and `list.sort(key=lambda x: (x['price'], x['ID']), reverse=r)`
by a stable merge sort on the corresponding lexicographic boolean key.
-/

/-- The `Offer` pydantic model of `main.py`. -/
structure Offer where
  ID : String
  data : String
  mostSpecificRegionID : Int
  startDate : Int
  endDate : Int
  numberSeats : Int
  price : Int
  carType : String
  hasVollkasko : Bool
  freeKilometers : Int
deriving DecidableEq, Repr

/-- The `SearchResultOffer` pydantic model: projection of an offer to
identifier and payload. -/
structure SearchResultOffer where
  ID : String
  data : String
deriving DecidableEq, Repr

/-- The `PriceRange` pydantic model (`start`, `end`, `count`); `end` is a
Lean keyword so the field is called `end_`. -/
structure PriceRange where
  start : Int
  end_ : Int
  count : Int
deriving DecidableEq, Repr

/-- The `CarTypeCount` pydantic model. -/
structure CarTypeCount where
  small : Int
  sports : Int
  luxury : Int
  family : Int
deriving DecidableEq, Repr

/-- The `SeatsCount` pydantic model. -/
structure SeatsCount where
  numberSeats : Int
  count : Int
deriving DecidableEq, Repr

/-- The `FreeKilometerRange` pydantic model. -/
structure FreeKilometerRange where
  start : Int
  end_ : Int
  count : Int
deriving DecidableEq, Repr

/-- The `VollkaskoCount` pydantic model. -/
structure VollkaskoCount where
  trueCount : Int
  falseCount : Int
deriving DecidableEq, Repr

/-- The `GetOffersResponse` pydantic model returned by `get_offers`. -/
structure GetOffersResponse where
  offers : List SearchResultOffer
  priceRanges : List PriceRange
  carTypeCounts : CarTypeCount
  seatsCount : List SeatsCount
  freeKilometerRange : List FreeKilometerRange
  vollkaskoCount : VollkaskoCount
deriving DecidableEq, Repr

/-- The `mandatory_filters` dict built in `get_offers`. -/
structure MandatoryFilters where
  regionID : Int
  timeRangeStart : Int
  timeRangeEnd : Int
  numberDays : Int
deriving DecidableEq, Repr

/-- The `optional_filters` dict built in `get_offers`; a `none` field models
a key removed by the `is not None` comprehension. -/
structure OptionalFilters where
  minNumberSeats : Option Int
  minPrice : Option Int
  maxPrice : Option Int
  carType : Option String
  onlyVollkasko : Option Bool
  minFreeKilometer : Option Int
deriving DecidableEq, Repr

/-- The query parameters of the `GET /api/offers` handler. -/
structure GetOffersQuery where
  regionID : Int
  timeRangeStart : Int
  timeRangeEnd : Int
  numberDays : Int
  sortOrder : String
  page : Int
  pageSize : Int
  priceRangeWidth : Int
  minFreeKilometerWidth : Int
  minNumberSeats : Option Int
  minPrice : Option Int
  maxPrice : Option Int
  carType : Option String
  onlyVollkasko : Option Bool
  minFreeKilometer : Option Int
deriving DecidableEq, Repr

/-- `matches_filters` from `main.py`, verbatim: the body is
`# Placeholder: Accept all offers` / `return True`. -/
def matches_filters (_offer : Offer) (_mandatory : MandatoryFilters)
    (_optional : OptionalFilters) : Bool :=
  true

/-- `compute_aggregations` from `main.py`, verbatim: every facet summary is
a placeholder constant (empty lists, all-zero counts). -/
def compute_aggregations (_filtered : List Offer) (_priceRangeWidth : Int)
    (_minFreeKilometerWidth : Int) (_mandatory : MandatoryFilters)
    (_optional : OptionalFilters) :
    List PriceRange × CarTypeCount × List SeatsCount ×
      List FreeKilometerRange × VollkaskoCount :=
  ([], CarTypeCount.mk 0 0 0 0, [], [], VollkaskoCount.mk 0 0)

/-- The sort key comparison used by
`filtered_offers.sort(key=lambda x: (x['price'], x['ID']))`:
Python tuple order on `(price, ID)`. -/
def offerLe (a b : Offer) : Bool :=
  decide (a.price < b.price) || (a.price == b.price && decide (a.ID ≤ b.ID))

/-- The flipped sort key used for `reverse=True` (`price-desc`):
a stable sort by the reversed key is Python's stable descending sort. -/
def offerGe (a b : Offer) : Bool :=
  offerLe b a

/-- The sort step of `get_offers`: a stable sort on key `(price, ID)`,
descending when `sortOrder == "price-desc"` (Python `reverse=True`). -/
def sortOffers (sortOrder : String) (l : List Offer) : List Offer :=
  if sortOrder == "price-desc" then l.mergeSort offerGe
  else l.mergeSort offerLe

/-- Python slice-index resolution for a list of length `n`:
a negative index counts from the end and clamps at `0`, a non-negative
index clamps at `n`. -/
def pyResolve (n : Nat) (i : Int) : Nat :=
  if i < 0 then ((n : Int) + i).toNat else min i.toNat n

/-- Python `l[a:b]` (step 1): elements from resolved index `a` up to but
excluding resolved index `b`. -/
def pySlice (l : List α) (a b : Int) : List α :=
  (l.take (pyResolve l.length b)).drop (pyResolve l.length a)

/-- The pagination step of `get_offers`:
`start_index = (page - 1) * pageSize`, `end_index = start_index + pageSize`,
`filtered_offers[start_index:end_index]`. -/
def paginate (page pageSize : Int) (l : List α) : List α :=
  pySlice l ((page - 1) * pageSize) ((page - 1) * pageSize + pageSize)

/-- The `mandatory_filters` dict as built by the handler from its query. -/
def mandatoryOf (q : GetOffersQuery) : MandatoryFilters :=
  MandatoryFilters.mk q.regionID q.timeRangeStart q.timeRangeEnd q.numberDays

/-- The `optional_filters` dict as built by the handler from its query
(the `None`-dropping comprehension is the `Option` structure itself). -/
def optionalOf (q : GetOffersQuery) : OptionalFilters :=
  OptionalFilters.mk q.minNumberSeats q.minPrice q.maxPrice q.carType
    q.onlyVollkasko q.minFreeKilometer

/-- `filtered_offers` as first computed in `get_offers`:
the offers of the store passing `matches_filters`. -/
def filtered_offers (db : List Offer) (q : GetOffersQuery) : List Offer :=
  db.filter (fun o => matches_filters o (mandatoryOf q) (optionalOf q))

/-- `filtered_offers` after the in-place `.sort(...)` call. -/
def sorted_offers (db : List Offer) (q : GetOffersQuery) : List Offer :=
  sortOffers q.sortOrder (filtered_offers db q)

/-- `paginated_offers` in `get_offers`. -/
def paginated_offers (db : List Offer) (q : GetOffersQuery) : List Offer :=
  paginate q.page q.pageSize (sorted_offers db q)

/-- The `GET /api/offers` handler body as a pure function of the store
snapshot and the query parameters. -/
def get_offers (db : List Offer) (q : GetOffersQuery) : GetOffersResponse :=
  let paginated := paginated_offers db q
  let results := paginated.map (fun o => SearchResultOffer.mk o.ID o.data)
  let aggs := compute_aggregations (sorted_offers db q) q.priceRangeWidth
    q.minFreeKilometerWidth (mandatoryOf q) (optionalOf q)
  GetOffersResponse.mk results aggs.1 aggs.2.1 aggs.2.2.1 aggs.2.2.2.1
    aggs.2.2.2.2

/-- The `POST /api/offers` handler effect on the store:
`offers_db.extend(offer_dicts)`. -/
def create_offers (offers : List Offer) (db : List Offer) : List Offer :=
  db ++ offers

/-- The `DELETE /api/offers` handler effect on the store:
`offers_db.clear()`. -/
def delete_offers (_db : List Offer) : List Offer :=
  []

/-- The `GET /api/offers` handler including its (absent) effect on the
store: it only reads `offers_db` (the list comprehension builds a fresh
list and the in-place sort mutates only that copy), so the state component
passes through unchanged. -/
def get_offers_handler (q : GetOffersQuery) (db : List Offer) :
    GetOffersResponse × List Offer :=
  (get_offers db q, db)

/-- The adjacency relation the ascending sort order promises on the page:
strictly cheaper, or same price and identifier not larger. -/
def ascAdj (a b : Offer) : Prop :=
  a.price < b.price ∨ (a.price = b.price ∧ a.ID ≤ b.ID)

/-- The response `get_offers` produces on an empty store: empty page and
empty or all-zero facet summaries. -/
def emptyResponse : GetOffersResponse :=
  GetOffersResponse.mk [] [] (CarTypeCount.mk 0 0 0 0) [] []
    (VollkaskoCount.mk 0 0)

/-- Sample offer located in region 7, available for exactly two days,
priced at 1000 cents. -/
def offer1 : Offer :=
  Offer.mk "id-a" "AAAA" 7 0 172800000 4 1000 "small" true 100

/-- Sample offer in region 1, available for the whole ten-day window,
priced at 50 cents. -/
def offer2 : Offer :=
  Offer.mk "id-b" "BBBB" 1 0 864000000 4 50 "small" true 100

/-- Sample offer in region 1, available for the whole ten-day window,
priced at 2000 cents. -/
def offer3 : Offer :=
  Offer.mk "id-c" "CCCC" 1 0 864000000 5 2000 "family" false 150

/-- Sample offer in the queried region but available for only two days
(172800000 ms), so a five-day stay cannot fit inside its availability. -/
def offerShort : Offer :=
  Offer.mk "id-d" "DDDD" 1 0 172800000 4 300 "sports" false 0

/-- Sample offer of car type `small`, price 50, satisfying every filter of
`qBase`. -/
def offerSmall : Offer :=
  Offer.mk "id-s" "SSSS" 1 0 864000000 4 50 "small" true 100

/-- A baseline query: region 1, window `[0, 864000000]` (ten days),
five required days, ascending price order, page 1 of size 10, price-bucket
width 100 and free-km-bucket width 50, no optional filters. -/
def qBase : GetOffersQuery :=
  GetOffersQuery.mk 1 0 864000000 5 "price-asc" 1 10 100 50 none none none
    none none none

/-! ### Helper lemmas -/

/-- `mergeSort` of the empty list is empty for either sort direction. -/
theorem sortOffers_nil (s : String) : sortOffers s [] = [] := by
  unfold sortOffers
  split <;> simp

/-- Slicing the empty list yields the empty list. -/
theorem paginate_nil (p s : Int) : paginate p s ([] : List Offer) = [] := by
  simp [paginate, pySlice]

/-- Searching an empty store yields the empty response. -/
theorem get_offers_nil (q : GetOffersQuery) : get_offers [] q = emptyResponse := by
  unfold get_offers paginated_offers sorted_offers filtered_offers
  rw [List.filter_nil, sortOffers_nil, paginate_nil]
  rfl

/-- For a positive page and a non-negative page size the Python slice
`l[(p-1)*s : (p-1)*s + s]` is `take s` after `drop (p-1)*s`. -/
theorem paginate_pos {α : Type _} (l : List α) (p s : Int) (hp : 1 ≤ p)
    (hs : 0 ≤ s) :
    paginate p s l = (l.drop ((p - 1) * s).toNat).take s.toNat := by
  have ha : 0 ≤ (p - 1) * s := mul_nonneg (by omega) hs
  have hb : 0 ≤ (p - 1) * s + s := by omega
  unfold paginate pySlice pyResolve
  rw [if_neg (by omega), if_neg (by omega)]
  have h1 : l.take (min ((p - 1) * s + s).toNat l.length)
      = l.take ((p - 1) * s + s).toNat := by
    rw [← List.take_take, List.take_length]
  rw [h1]
  rcases le_or_lt ((p - 1) * s).toNat l.length with h | h
  · rw [min_eq_left h, List.drop_take]
    congr 1
    omega
  · rw [min_eq_right h.le]
    have h2 : (l.take ((p - 1) * s + s).toNat).drop l.length = [] := by
      rw [List.drop_eq_nil_iff]
      simp
    have h3 : l.drop ((p - 1) * s).toNat = [] := by
      rw [List.drop_eq_nil_iff]
      omega
    rw [h2, h3, List.take_nil]

/-- Splitting a list into consecutive chunks of `s` elements and
concatenating them gives back the list, once `k` chunks cover its length. -/
theorem chunks_join {α : Type _} (s : Nat) : ∀ (k : Nat) (l : List α),
    l.length ≤ k * s →
    ((List.range k).map (fun i => (l.drop (i * s)).take s)).flatten = l := by
  intro k
  induction k with
  | zero =>
    intro l h
    simp only [Nat.zero_mul, Nat.le_zero, List.length_eq_zero] at h
    subst h
    simp
  | succ k ih =>
    intro l h
    rw [List.range_succ_eq_map, List.map_cons, List.map_map]
    have hmap : ((fun i => (l.drop (i * s)).take s) ∘ Nat.succ)
        = fun i => ((l.drop s).drop (i * s)).take s := by
      funext i
      simp only [Function.comp]
      rw [List.drop_drop]
      congr 2
      rw [Nat.succ_mul, Nat.add_comm]
    rw [hmap]
    have hlen : (l.drop s).length ≤ k * s := by
      rw [List.length_drop]
      calc l.length - s ≤ (k + 1) * s - s := by omega
        _ = k * s := by rw [Nat.succ_mul]; omega
    rw [List.flatten_cons, ih (l.drop s) hlen]
    simp [List.take_append_drop]

/-- The boolean sort key agrees with the adjacency relation. -/
theorem offerLe_iff (a b : Offer) : offerLe a b = true ↔ ascAdj a b := by
  simp [offerLe, ascAdj, Bool.or_eq_true, Bool.and_eq_true, decide_eq_true_eq,
    beq_iff_eq]

/-- The sort key comparison is transitive. -/
theorem offerLe_trans (a b c : Offer) (h1 : offerLe a b = true)
    (h2 : offerLe b c = true) : offerLe a c = true := by
  rw [offerLe_iff] at h1 h2 ⊢
  rcases h1 with h1 | ⟨h1, h1'⟩ <;> rcases h2 with h2 | ⟨h2, h2'⟩
  · exact Or.inl (h1.trans h2)
  · exact Or.inl (h2 ▸ h1)
  · exact Or.inl (h1 ▸ h2)
  · exact Or.inr ⟨h1.trans h2, le_trans h1' h2'⟩

/-- The sort key comparison is total. -/
theorem offerLe_total (a b : Offer) : (offerLe a b || offerLe b a) = true := by
  by_cases h : a.price < b.price
  · simp [offerLe, h]
  · by_cases h' : b.price < a.price
    · simp [offerLe, h']
    · have heq : a.price = b.price := le_antisymm (not_lt.mp h') (not_lt.mp h)
      rcases le_total a.ID b.ID with hid | hid <;> simp [offerLe, heq, hid]

/-- The sorted list is pairwise ordered in the direction the query asks
for: flipped key for `price-desc`, plain key otherwise. -/
theorem sortOffers_pairwise (s : String) (l : List Offer) :
    (sortOffers s l).Pairwise
      (fun a b => if s == "price-desc" then ascAdj b a else ascAdj a b) := by
  cases hbe : (s == "price-desc") with
  | true =>
    simp only [sortOffers, hbe, if_true]
    have hp := List.sorted_mergeSort
      (fun a b c h1 h2 => offerLe_trans c b a h2 h1)
      (fun a b => offerLe_total b a) l
    exact hp.imp (fun hab => (offerLe_iff _ _).mp hab)
  | false =>
    simp only [sortOffers, hbe, if_false]
    have hp := List.sorted_mergeSort offerLe_trans offerLe_total l
    exact hp.imp (fun hab => (offerLe_iff _ _).mp hab)

/-- The returned page is a sublist of the sorted filtered set. -/
theorem paginated_sublist (db : List Offer) (q : GetOffersQuery) :
    List.Sublist (paginated_offers db q) (sorted_offers db q) := by
  unfold paginated_offers paginate pySlice
  exact (List.drop_sublist _ _).trans (List.take_sublist _ _)

/-! ### Claim theorems -/

/-- Claim C1 (code evaluation at the failing input): `matches_filters`
returns `true` for an offer whose most-specific region (7) differs from
the queried region (1), although no region tree relates them (the
repository ships no `regions.json`, so `regions_data` is empty and every
region is its own singleton subtree).  The claimed region semantics would
require `false` here; the placeholder accepts every offer. -/
theorem matches_accepts_unrelated_region :
    matches_filters offer1 (mandatoryOf qBase) (optionalOf qBase) = true ∧
    offer1.mostSpecificRegionID ≠ qBase.regionID := by
  exact ⟨rfl, by decide⟩

/-- Claim C2 (code evaluation at the failing input): `matches_filters`
returns `true` for an offer available for only two days under a five-day
request, although `min(end, reqEnd) - max(start, reqStart)` is strictly
below `numberDays * 86400000`; the claimed availability semantics would
require `false`. -/
theorem matches_accepts_short_availability :
    matches_filters offerShort (mandatoryOf qBase) (optionalOf qBase) = true ∧
    min offerShort.endDate qBase.timeRangeEnd
      - max offerShort.startDate qBase.timeRangeStart
      < qBase.numberDays * 86400000 := by
  exact ⟨rfl, by decide⟩

/-- Claim C3 (code evaluation at the failing input): a store holding one
`small`-type offer that passes every filter (it is the entire scoped
subset for every facet) still yields all-zero car-type counts, because
`compute_aggregations` ignores the offers it is given; the claimed
own-dimension-exclusion semantics would count this offer (`small = 1`). -/
theorem facet_counts_ignore_offers :
    matches_filters offerSmall (mandatoryOf qBase) (optionalOf qBase) = true ∧
    sorted_offers [offerSmall] qBase = [offerSmall] ∧
    (get_offers [offerSmall] qBase).carTypeCounts = CarTypeCount.mk 0 0 0 0 := by
  refine ⟨rfl, ?_, rfl⟩
  simp [sorted_offers, filtered_offers, sortOffers, matches_filters, qBase]

/-- Claim C4: every pair of adjacent entries of the returned page is
ordered by price with identifier tie-break — ascending for `price-asc`
(the default branch of the code), with both keys reversed together for
`price-desc`. -/
theorem page_sorted_adjacent (db : List Offer) (q : GetOffersQuery) :
    (paginated_offers db q).Chain'
      (fun a b => if q.sortOrder == "price-desc" then ascAdj b a
        else ascAdj a b) := by
  have hp := sortOffers_pairwise q.sortOrder (filtered_offers db q)
  exact (List.Pairwise.sublist (paginated_sublist db q) hp).chain'

/-- Claim C5 (amended): for page `p ≥ 1` and page size `s ≥ 0`, pagination
returns exactly the elements at zero-based offsets `(p-1)*s` through
`(p-1)*s + s - 1`, and an out-of-range page yields the empty slice (and
the total function never fails).  The original claim's clause for
`page ≤ 0` or `pageSize ≤ 0` does not hold: Python negative-index slicing
applies there (see the counterexample). -/
theorem paginate_offsets (l : List Offer) (p s : Int) (hp : 1 ≤ p)
    (hs : 0 ≤ s) :
    paginate p s l = (l.drop ((p - 1) * s).toNat).take s.toNat ∧
    ((l.length : Int) ≤ (p - 1) * s → paginate p s l = []) := by
  refine ⟨paginate_pos l p s hp hs, fun hout => ?_⟩
  rw [paginate_pos l p s hp hs]
  have ha : 0 ≤ (p - 1) * s := mul_nonneg (by omega) hs
  rw [List.drop_eq_nil_iff.mpr (by omega), List.take_nil]

/-- Claim C5 witness: page 2 of size 2 over a three-offer list is the
elements from offset 2 on. -/
theorem paginate_offsets_witness :
    paginate 2 2 [offer1, offer2, offer3]
      = ([offer1, offer2, offer3].drop (((2 : Int) - 1) * 2).toNat).take
          (2 : Int).toNat ∧
    (([offer1, offer2, offer3].length : Int) ≤ ((2 : Int) - 1) * 2 →
      paginate 2 2 [offer1, offer2, offer3] = []) :=
  paginate_offsets [offer1, offer2, offer3] 2 2 (by decide) (by decide)

/-- Claim C5 counterexample: with page `-1` and page size `2` on a
three-element list, the slice bounds resolve to `[-4:-2]`, i.e. `[0:1]`,
so a non-empty slice is returned although the claim demands an empty one
for every `page ≤ 0`. -/
theorem paginate_negative_page_nonempty :
    paginate (-1) 2 [offer1, offer2, offer3] ≠ [] := by decide

/-- Claim C6: for a positive page size `s`, the pages numbered `1, 2, …`
concatenate back to the underlying list (once `k` pages cover its
length): consecutive pages partition the filtered set with no overlap
and no gap. -/
theorem pages_partition (s : Int) (hs : 1 ≤ s) (l : List Offer) (k : Nat)
    (hk : l.length ≤ k * s.toNat) :
    ((List.range k).map
      (fun (i : Nat) => paginate ((i : Int) + 1) s l)).flatten = l := by
  lift s to ℕ using (by omega : (0 : Int) ≤ s) with n hn
  have hrw : ∀ i : Nat, paginate ((i : Int) + 1) (n : Int) l
      = (l.drop (i * n)).take n := by
    intro i
    rw [paginate_pos l ((i : Int) + 1) (n : Int) (by omega) (by omega)]
    have h1 : (((i : Int) + 1 - 1) * (n : Int)).toNat = i * n := by
      have h2 : ((i : Int) + 1 - 1) * (n : Int) = ((i * n : Nat) : Int) := by
        push_cast
        ring
      rw [h2, Int.toNat_natCast]
    rw [h1, Int.toNat_natCast]
  have hfun : (fun i : Nat => paginate ((i : Int) + 1) (n : Int) l)
      = fun i : Nat => (l.drop (i * n)).take n := funext hrw
  rw [hfun]
  exact chunks_join n k l (by simpa using hk)

/-- Claim C6 witness: two pages of size 2 partition a three-offer list. -/
theorem pages_partition_witness :
    ((List.range 2).map
      (fun (i : Nat) => paginate ((i : Int) + 1) 2 [offer1, offer2, offer3])).flatten
      = [offer1, offer2, offer3] :=
  pages_partition 2 (by decide) [offer1, offer2, offer3] 2 (by decide)

/-- Claim C7 (code evaluation at the failing input): with one offer of
price 50 in scope and bucket width 100, the emitted price histogram is
empty, so the offer's price falls in no emitted bucket; the claimed
coverage rule would require one bucket `[0, 100)` with count 1. -/
theorem price_buckets_empty_despite_offer :
    matches_filters offerSmall (mandatoryOf qBase) (optionalOf qBase) = true ∧
    sorted_offers [offerSmall] qBase = [offerSmall] ∧
    (get_offers [offerSmall] qBase).priceRanges = [] := by
  refine ⟨rfl, ?_, rfl⟩
  simp [sorted_offers, filtered_offers, sortOffers, matches_filters, qBase]

/-- Claim C8: after `delete_offers` empties the store, any search returns
the empty page with empty or all-zero facet summaries, and clearing again
leaves the store empty (idempotence). -/
theorem clear_then_search_empty (db : List Offer) (q : GetOffersQuery) :
    get_offers (delete_offers db) q = emptyResponse ∧
    delete_offers (delete_offers db) = delete_offers db :=
  ⟨get_offers_nil q, rfl⟩

/-- Claim C9: the search handler leaves the store unchanged, repeating the
same search against the resulting store gives the identical response, and
the response is the pure function `get_offers` of the store snapshot and
the filter set. -/
theorem search_pure (q : GetOffersQuery) (db : List Offer) :
    (get_offers_handler q db).2 = db ∧
    (get_offers_handler q ((get_offers_handler q db).2)).1
      = (get_offers_handler q db).1 ∧
    (get_offers_handler q db).1 = get_offers db q :=
  ⟨rfl, rfl, rfl⟩

/-- Claim C10: for every store and every query the facet summaries of the
response are the placeholder constants — empty price ranges, seat counts
and free-kilometer ranges, all-zero car-type counts and all-zero insurance
counts. -/
theorem facets_constant (db : List Offer) (q : GetOffersQuery) :
    (get_offers db q).priceRanges = [] ∧
    (get_offers db q).carTypeCounts = CarTypeCount.mk 0 0 0 0 ∧
    (get_offers db q).seatsCount = [] ∧
    (get_offers db q).freeKilometerRange = [] ∧
    (get_offers db q).vollkaskoCount = VollkaskoCount.mk 0 0 :=
  ⟨rfl, rfl, rfl, rfl, rfl⟩
